import Mathlib

/-!
Shallow embedding of the usage-metering and document-processing core of the
document-summarizer backend (`src/backend/models/Usage.js`,
`src/backend/middleware/subscriptionAuth.js`, `src/backend/server.js`, and the
text extractors of `src/unnamed/part_004` / the `documentProcessor` service).

Database effects are modelled by explicit state passing: the Mongo `usages`
collection (unique compound index on `(userId, month)`) becomes a function from
the pair of keys to an optional usage record.  The external summarizer and the
format parsers are injected as `Except`-valued arguments, mirroring the
`await`ed calls that either return a value or throw.
-/

/-- One document of the `usages` collection: the per-user, per-month counters
(`documentCount`, `pageCount` with default 0).  The `lastReset` bookkeeping
date does not influence any behaviour modelled here and is omitted. -/
structure UsageRec where
  documentCount : Nat
  pageCount : Nat
deriving DecidableEq, Repr

/-- The `usages` collection, keyed by `(userId, month)` (the schema's unique
compound index).  `none` means no record exists for that user and month. -/
abbrev Ledger := String → String → Option UsageRec

/-- A ledger with no records at all (a fresh database). -/
def emptyLedger : Ledger := fun _ _ => none

/-- A ledger holding exactly one record, for the given user and month. -/
def singletonLedger (uid month : String) (r : UsageRec) : Ledger :=
  fun u m => if u = uid ∧ m = month then some r else none

/-- `Usage.getCurrentUsage(userId)`: `findOne` for the current month, returning
zero counters when no record exists (and creating nothing on read). -/
def getCurrentUsage (l : Ledger) (uid month : String) : UsageRec :=
  match l uid month with
  | some u => u
  | none => { documentCount := 0, pageCount := 0 }

/-- `Usage.incrementUsage(userId, pageCount)`: one `findOneAndUpdate` with
`$inc: \x7b documentCount: 1, pageCount: pageCount \x7d` and `upsert: true`.
The whole read-or-insert-and-increment is a single atomic operation on the
store; inserting a fresh record and `$inc`-ing it from the schema defaults (0)
coincide, which the model exploits by incrementing the zero record. -/
def incrementUsage (l : Ledger) (uid month : String) (pc : Nat) : Ledger :=
  fun u m =>
    if u = uid ∧ m = month then
      some { documentCount := (getCurrentUsage l uid month).documentCount + 1,
             pageCount := (getCurrentUsage l uid month).pageCount + pc }
    else l u m

/-- Plan limits as in the `limits` literals of `Usage.js`: `documents` and
`pages` are either a finite bound (`some n`) or `Infinity` (`none`). -/
structure PlanLimits where
  documents : Option Nat
  pages : Option Nat
deriving DecidableEq, Repr

/-- The value of `limits[plan] || limits.free` in `Usage.js`: either one of
the literal's own records, or — when the plan name is an inherited property
of `Object.prototype` — the truthy inherited function/object found on the
prototype chain, whose `documents` and `pages` properties are `undefined`. -/
inductive LimitsVal where
  | obj : PlanLimits → LimitsVal
  | inherited : LimitsVal
deriving DecidableEq, Repr

/-- The property names an object literal inherits from `Object.prototype`:
for these, `limits[plan]` resolves through the prototype chain to a truthy
function (or, for `__proto__`, to `Object.prototype` itself) even though the
literal has no such own key. -/
def objectPrototypeNames : List String :=
  ["constructor", "hasOwnProperty", "isPrototypeOf", "propertyIsEnumerable",
   "toLocaleString", "toString", "valueOf", "__proto__", "__defineGetter__",
   "__defineSetter__", "__lookupGetter__", "__lookupSetter__"]

/-- `limits[plan] || limits.free` over the literal `\x7b free: \x7bdocuments:
5, pages: 100\x7d, premium: \x7bdocuments: 50, pages: 1000\x7d, pro:
\x7bdocuments: Infinity, pages: Infinity\x7d \x7d`, with JS property-lookup
semantics: own keys first, then the `Object.prototype` chain (all of whose
hits are truthy, so `||` keeps them); only a complete miss yields the falsy
`undefined` and falls back to `limits.free`.  `getLimits` and
`hasExceededLimit` each contain this identical literal and lookup. -/
def lookupLimits (plan : String) : LimitsVal :=
  if plan = "free" then LimitsVal.obj { documents := some 5, pages := some 100 }
  else if plan = "premium" then LimitsVal.obj { documents := some 50, pages := some 1000 }
  else if plan = "pro" then LimitsVal.obj { documents := none, pages := none }
  else if plan ∈ objectPrototypeNames then LimitsVal.inherited
  else LimitsVal.obj { documents := some 5, pages := some 100 }

/-- `Usage.getLimits(plan)`: `return limits[plan] || limits.free` — the raw
lookup result, which is the inherited non-limits value for
`Object.prototype` plan names. -/
def getLimits (plan : String) : LimitsVal :=
  lookupLimits plan

/-- The JS comparison `current >= limit` where `limit` may be `Infinity`
(`none`): a finite count is never `>=` Infinity. -/
def jsGeLimit (current : Nat) (limit : Option Nat) : Bool :=
  match limit with
  | some n => decide (n ≤ current)
  | none => false

/-- The JS comparison `current >= limit` when `limit` is `undefined` (the
`documents`/`pages` properties of an inherited `Object.prototype` value):
the comparison is NaN-driven and always false. -/
def jsGeUndefined (_current : Nat) : Bool := false

/-- Result object of `Usage.hasExceededLimit`: `\x7bexceeded, reason\x7d`,
extended with `current` and `limit` on the exceeded branches. -/
structure LimitCheck where
  exceeded : Bool
  reason : Option String
  current : Option Nat
  limit : Option Nat
deriving DecidableEq, Repr

/-- `Usage.hasExceededLimit(userId, plan)`: resolve the plan's limits with the
same `limits[plan] || limits.free` literal lookup, short-circuit unlimited
plans, then check the document bound first and the page bound second.  When
the lookup found an inherited `Object.prototype` value, `limit.documents` and
`limit.pages` are `undefined`: the `=== Infinity` test is false and both
`>=` comparisons are false, so the check never reports exceeded. -/
def hasExceededLimit (l : Ledger) (uid month plan : String) : LimitCheck :=
  match lookupLimits plan with
  | LimitsVal.obj limit =>
    if limit.documents = none ∧ limit.pages = none then
      { exceeded := false, reason := none, current := none, limit := none }
    else
      let currentUsage := getCurrentUsage l uid month
      if jsGeLimit currentUsage.documentCount limit.documents then
        { exceeded := true, reason := some "document_limit",
          current := some currentUsage.documentCount, limit := limit.documents }
      else if jsGeLimit currentUsage.pageCount limit.pages then
        { exceeded := true, reason := some "page_limit",
          current := some currentUsage.pageCount, limit := limit.pages }
      else
        { exceeded := false, reason := none, current := none, limit := none }
  | LimitsVal.inherited =>
    let currentUsage := getCurrentUsage l uid month
    if jsGeUndefined currentUsage.documentCount then
      { exceeded := true, reason := some "document_limit",
        current := some currentUsage.documentCount, limit := none }
    else if jsGeUndefined currentUsage.pageCount then
      { exceeded := true, reason := some "page_limit",
        current := some currentUsage.pageCount, limit := none }
    else
      { exceeded := false, reason := none, current := none, limit := none }

/-- Render a possibly-infinite limit the way JS string interpolation would
(`Infinity` for the unbounded case). -/
def jsNumToString (n : Option Nat) : String :=
  match n with
  | some k => toString k
  | none => "Infinity"

/-- `req.usage.limits.documents` interpolated into a message: `undefined` when
the limits lookup returned an inherited prototype value. -/
def jsDocumentsToString : LimitsVal → String
  | LimitsVal.obj l => jsNumToString l.documents
  | LimitsVal.inherited => "undefined"

/-- `req.usage.limits.pages` interpolated into a message. -/
def jsPagesToString : LimitsVal → String
  | LimitsVal.obj l => jsNumToString l.pages
  | LimitsVal.inherited => "undefined"

/-- The 403 body sent by `canUploadDocument` when the limit check reports
exceeded: `\x7berror, message: details, currentUsage: usage, limits, plan,
reason\x7d`.  `reason : Option String` models the JS value, `none` standing
for `undefined` (dropped during JSON serialization). -/
structure DenyResponse where
  error : String
  message : String
  currentUsage : UsageRec
  limits : LimitsVal
  plan : String
  reason : Option String
deriving DecidableEq, Repr

/-- Outcome of the `canUploadDocument` middleware for an authenticated user:
either fall through to the route handler or answer 403 with a `DenyResponse`. -/
inductive UploadGate where
  | allowed : UploadGate
  | denied : DenyResponse → UploadGate
deriving DecidableEq, Repr

/-- The middleware executes `const \x7b reason, current, limit \x7d =
req.usage.limitReason;`.  `checkSubscription` stored the *string*
`limitCheck.reason` (for example "document_limit") in `req.usage.limitReason`,
not the limit-check object, and JavaScript property access for the names
`reason`, `current` and `limit` on a string value yields `undefined`.  The
destructured `reason` binding is therefore always `undefined` (`none`). -/
def destructuredReason (_limitReason : Option String) : Option String := none

/-- `canUploadDocument` (with `checkSubscription` inlined, as the middleware
calls it to populate `req.usage`): recompute current usage and the limit
check; when `hasExceeded`, build the 403 response; otherwise `next()`. -/
def canUploadDocument (l : Ledger) (uid month plan : String) : UploadGate :=
  let currentUsage := getCurrentUsage l uid month
  let limitCheck := hasExceededLimit l uid month plan
  let limits := getLimits plan
  if limitCheck.exceeded then
    let reason := destructuredReason limitCheck.reason
    let msg : String × String :=
      if reason = some "document_limit" then
        ("Document limit exceeded",
         "You have processed " ++ toString currentUsage.documentCount ++
           " documents this month (limit: " ++ jsDocumentsToString limits ++
           "). Please upgrade your plan to continue.")
      else if reason = some "page_limit" then
        ("Page limit exceeded",
         "You have processed " ++ toString currentUsage.pageCount ++
           " pages this month (limit: " ++ jsPagesToString limits ++
           "). Please upgrade your plan to continue.")
      else
        ("You have reached your monthly limit. Please upgrade your plan to continue.",
         "")
    UploadGate.denied
      { error := msg.1, message := msg.2, currentUsage := currentUsage,
        limits := limits, plan := plan, reason := reason }
  else
    UploadGate.allowed

/-- Characters matched by the `\s` class of the JS regex `/\s+/`, and removed
from the ends by `String.prototype.trim` (the ASCII part; the extracted texts
are handled uniformly, so the exact class only determines where words are
cut). -/
def jsWhitespace (c : Char) : Bool :=
  c = ' ' ∨ c = '\t' ∨ c = '\n' ∨ c = '\x0d' ∨ c = '\x0b' ∨ c = '\x0c'

/-- `text.trim()`: strip leading and trailing whitespace. -/
def jsTrim (s : String) : String :=
  String.mk (((s.data.dropWhile jsWhitespace).reverse.dropWhile jsWhitespace).reverse)

/-- The `\x7btext, pageCount\x7d` object produced by the text extractors and
consumed by both route handlers. -/
structure DocData where
  text : String
  pageCount : Nat
deriving DecidableEq, Repr

/-- Responses of `POST /api/process-document` (authenticated route handler). -/
inductive AuthResponse where
  | noFile : AuthResponse
  | emptyText : AuthResponse
  | invalidSize : AuthResponse
  | processingError : String → AuthResponse
  | success : String → String → String → AuthResponse
deriving DecidableEq, Repr

/-- Result of one authenticated processing request: the HTTP response, the
ledger after the request, and whether the temporary uploaded file is still in
the uploads directory when the request terminates. -/
structure AuthOutcome where
  response : AuthResponse
  ledger : Ledger
  fileStored : Bool

/-- The `POST /api/process-document` handler (after `requireAuth` and
`canUploadDocument` admitted the request).  `extract` is the awaited
`processDocument` call and `summ` the awaited `generateSummary` call, each
either returning or throwing; a thrown error lands in the `catch` block,
which unlinks the file (when present) and answers 500.  The early `return`s
for empty text and for an invalid summary size do *not* unlink the file.
`Document.save` touches the documents collection, not the usage ledger, and
is not tracked. -/
def processDocumentAuth (fileUploaded : Bool) (extract : Except String DocData)
    (summ : Except String String) (plan : String) (bodySummarySize : Option String)
    (l : Ledger) (uid month : String) : AuthOutcome :=
  if fileUploaded = false then
    { response := AuthResponse.noFile, ledger := l, fileStored := false }
  else
    match extract with
    | Except.error e =>
        { response := AuthResponse.processingError e, ledger := l, fileStored := false }
    | Except.ok documentData =>
        if jsTrim documentData.text = "" then
          { response := AuthResponse.emptyText, ledger := l, fileStored := true }
        else
          let summarySize := bodySummarySize.getD "short"
          let summarySize :=
            if plan = "free" ∧ summarySize = "long" then "medium" else summarySize
          if summarySize ∈ (["short", "medium", "long"] : List String) then
            match summ with
            | Except.error e =>
                { response := AuthResponse.processingError e, ledger := l,
                  fileStored := false }
            | Except.ok summary =>
                let l' := incrementUsage l uid month documentData.pageCount
                { response := AuthResponse.success summary summarySize plan,
                  ledger := l', fileStored := false }
          else
            { response := AuthResponse.invalidSize, ledger := l, fileStored := true }

/-- Responses of `POST /api/process-document-guest`. -/
inductive GuestResponse where
  | noFile : GuestResponse
  | emptyText : GuestResponse
  | tooLarge : Nat → Nat → GuestResponse
  | processingError : String → GuestResponse
  | success : String → String → Nat → GuestResponse
deriving DecidableEq, Repr

/-- Result of one guest processing request; the guest route never touches the
usage ledger, but it is threaded through to state exactly that. -/
structure GuestOutcome where
  response : GuestResponse
  ledger : Ledger
  fileStored : Bool

/-- The `POST /api/process-document-guest` handler: same extraction and
empty-text check as the authenticated route, then the hard 2-page ceiling
(`pageCount > 2` answers 400 with `pageCount` and `maxPages: 2` after
unlinking the file), then a forced "short" summary.  As in the authenticated
handler, the empty-text early `return` does not unlink the file. -/
def processDocumentGuest (fileUploaded : Bool) (extract : Except String DocData)
    (summ : Except String String) (l : Ledger) : GuestOutcome :=
  if fileUploaded = false then
    { response := GuestResponse.noFile, ledger := l, fileStored := false }
  else
    match extract with
    | Except.error e =>
        { response := GuestResponse.processingError e, ledger := l, fileStored := false }
    | Except.ok documentData =>
        if jsTrim documentData.text = "" then
          { response := GuestResponse.emptyText, ledger := l, fileStored := true }
        else if 2 < documentData.pageCount then
          { response := GuestResponse.tooLarge documentData.pageCount 2,
            ledger := l, fileStored := false }
        else
          match summ with
          | Except.error e =>
              { response := GuestResponse.processingError e, ledger := l,
                fileStored := false }
          | Except.ok summary =>
              { response := GuestResponse.success summary "short" documentData.pageCount,
                ledger := l, fileStored := false }

/-- Engine of `text.split(/\s+/)`: each maximal whitespace run is one
separator, so a leading run contributes a leading empty field, a trailing run
a trailing empty field, and the empty string yields the single field `""`.
`cur` is the field under construction (reversed), `inWs` whether the previous
character belonged to a separator run. -/
def splitWsAux : List Char → List Char → Bool → List (List Char)
  | [], cur, _ => [cur.reverse]
  | c :: rest, cur, inWs =>
    if jsWhitespace c then
      if inWs then splitWsAux rest cur true
      else cur.reverse :: splitWsAux rest [] true
    else splitWsAux rest (c :: cur) false

/-- `text.split(/\s+/)` as a list of fields. -/
def jsSplitWs (s : String) : List String :=
  (splitWsAux s.data [] false).map (fun l => String.mk l)

/-- `const wordCount = text.split(/\s+/).length` as computed by the DOCX, TXT,
RTF and ODT extractors. -/
def wordCount (text : String) : Nat :=
  (jsSplitWs text).length

/-- `Math.max(1, Math.ceil(wordCount / 500))`: the estimated page count.  The
JS division is modelled exactly over the rationals (for the word counts that
can occur, the double-precision quotient ceils to the same integer). -/
def estimatedPages (text : String) : Nat :=
  max 1 (Int.toNat ⌈(wordCount text : ℚ) / 500⌉)

/-- `extractTextFromTXT`: the raw file contents read as UTF-8 are returned
untouched, with the word-count page estimate. -/
def extractTextFromTXT (raw : String) : DocData :=
  { text := raw, pageCount := estimatedPages raw }

/-- Text assembly of `extractTextFromDOCX`: a document is sections of
paragraphs of runs; every run with truthy `text` contributes `run.text + " "`,
and every paragraph appends a newline. -/
def docxText (sections : List (List (List String))) : String :=
  sections.foldl
    (fun text sec =>
      sec.foldl
        (fun text paragraph =>
          (paragraph.foldl
            (fun text run => if run ≠ "" then text ++ run ++ " " else text)
            text) ++ "\n")
        text)
    ""

/-- `extractTextFromDOCX`: the page estimate is computed on the assembled
text *before* the final `trim`, while the returned text is trimmed. -/
def extractTextFromDOCX (sections : List (List (List String))) : DocData :=
  let text := docxText sections
  { text := jsTrim text, pageCount := estimatedPages text }

/-- `extractTextFromRTF`: the chain of `replace` calls that strips RTF control
words, groups and escapes is not modelled; `stripped` is the value of the JS
`text` variable after those substitutions and the final `trim()`.  The page
estimate is then the same word-count formula on that stripped text. -/
def extractTextFromRTF (stripped : String) : DocData :=
  { text := stripped, pageCount := estimatedPages stripped }

mutual
/-- A node of the `xml2js` parse of `content.xml`: a string, an object of
keyed children, or an array of children (JS arrays being objects too). -/
inductive XmlNode where
  | str : String → XmlNode
  | obj : XmlFields → XmlNode
  | arr : XmlElems → XmlNode

/-- The key/value fields of an object node, in `for...in` order. -/
inductive XmlFields where
  | nil : XmlFields
  | cons : String → XmlNode → XmlFields → XmlFields

/-- The elements of an array node, in index order. -/
inductive XmlElems where
  | nil : XmlElems
  | cons : XmlNode → XmlElems → XmlElems
end

mutual
/-- JS string coercion (`node[key] + ' '` under the `'_'` key): strings are
themselves, arrays join their coerced elements with commas, plain objects
coerce to "[object Object]". -/
def jsToString : XmlNode → String
  | XmlNode.str s => s
  | XmlNode.obj _ => "[object Object]"
  | XmlNode.arr l => jsArrToString l

/-- Comma-joined coercion of an array's elements. -/
def jsArrToString : XmlElems → String
  | XmlElems.nil => ""
  | XmlElems.cons n XmlElems.nil => jsToString n
  | XmlElems.cons n (XmlElems.cons m rest) =>
      jsToString n ++ "," ++ jsArrToString (XmlElems.cons m rest)
end

mutual
/-- The recursive `extractTextFromNode` of the ODT extractor, as the string it
appends to `text`: a string node contributes itself plus a space; an object
node is walked field by field; an array node reached here is walked by
`for...in` over its indices (no index equals `'_'`, array elements are
dispatched like object values, so string elements at this level are skipped). -/
def nodeText : XmlNode → String
  | XmlNode.str s => s ++ " "
  | XmlNode.obj fields => fieldsText fields
  | XmlNode.arr elems => arrForInText elems

/-- The `for (const key in node)` loop over an object's fields. -/
def fieldsText : XmlFields → String
  | XmlFields.nil => ""
  | XmlFields.cons k v rest => keyText k v ++ fieldsText rest

/-- Dispatch on one key: `'_'` appends the string-coerced value plus a space;
otherwise arrays are `forEach`-ed into `extractTextFromNode`, objects are
recursed into, and any other value (a string under a non-`'_'` key) is
skipped because it passes neither the `Array.isArray` nor the
`typeof === 'object'` test. -/
def keyText : String → XmlNode → String
  | k, v =>
    if k = "_" then jsToString v ++ " "
    else
      match v with
      | XmlNode.arr elems => forEachText elems
      | XmlNode.obj fields => nodeText (XmlNode.obj fields)
      | XmlNode.str _ => ""

/-- `node[key].forEach(extractTextFromNode)`. -/
def forEachText : XmlElems → String
  | XmlElems.nil => ""
  | XmlElems.cons n rest => nodeText n ++ forEachText rest

/-- The indices of an array node passed directly to `extractTextFromNode`:
each index key is compared against `'_'` (never equal) and its element
dispatched like an object value. -/
def arrForInText : XmlElems → String
  | XmlElems.nil => ""
  | XmlElems.cons n rest =>
      (match n with
       | XmlNode.arr elems => forEachText elems
       | XmlNode.obj fields => nodeText (XmlNode.obj fields)
       | XmlNode.str _ => "") ++ arrForInText rest
end

/-- Outcome of the structured ODT parse attempted inside the `try` block of
`extractTextFromODT`: either the parsed `content.xml` tree, or one of the
three failure modes (the archive cannot be opened, `content.xml` is absent,
the XML does not parse). -/
inductive OdtParse where
  | ok : XmlNode → OdtParse
  | zipOpenError : OdtParse
  | missingContentXml : OdtParse
  | xmlParseError : OdtParse

/-- `extractTextFromODT`: on a successful parse, walk the tree, estimate pages
from the untrimmed accumulated text and return it trimmed; on any failure the
`catch` block returns `extractTextFromTXT(filePath)`, the raw bytes read as
plain text.  `raw` is the file's contents as UTF-8. -/
def extractTextFromODT (parse : OdtParse) (raw : String) : DocData :=
  match parse with
  | OdtParse.ok root =>
      let text := nodeText root
      { text := jsTrim text, pageCount := estimatedPages text }
  | OdtParse.zipOpenError => extractTextFromTXT raw
  | OdtParse.missingContentXml => extractTextFromTXT raw
  | OdtParse.xmlParseError => extractTextFromTXT raw

/-- The real ceiling `Math.ceil(wc / 500)` agrees with the natural-number
ceiling division `(wc + 499) / 500`. -/
theorem pages_bridge (wc : Nat) : (⌈(wc : ℚ) / 500⌉).toNat = (wc + 499) / 500 := by
  have hdm := Nat.div_add_mod (wc + 499) 500
  have hmlt : (wc + 499) % 500 < 500 := Nat.mod_lt _ (by norm_num)
  set n := (wc + 499) / 500 with hn
  have h1 : 500 * n ≤ wc + 499 := by omega
  have h2 : wc ≤ 500 * n := by omega
  have hceil : ⌈(wc : ℚ) / 500⌉ = (n : ℤ) := by
    rw [Int.ceil_eq_iff]
    have h1q : (500 : ℚ) * n ≤ (wc : ℚ) + 499 := by exact_mod_cast h1
    have h2q : (wc : ℚ) ≤ 500 * n := by exact_mod_cast h2
    constructor
    · rw [lt_div_iff₀ (by norm_num : (0:ℚ) < 500)]
      push_cast
      linarith
    · rw [div_le_iff₀ (by norm_num : (0:ℚ) < 500)]
      push_cast
      linarith
  rw [hceil, Int.toNat_natCast]

/-- The page estimate in closed natural-number form. -/
theorem estimatedPages_eq (text : String) :
    estimatedPages text = max 1 ((wordCount text + 499) / 500) := by
  unfold estimatedPages
  rw [pages_bridge]

/-- Folding the atomic increment over any sequence of page counts adds the
length of the sequence to `documentCount` and its sum to `pageCount`. -/
theorem foldl_incrementUsage (uid month : String) (ops : List Nat) (l : Ledger) :
    (getCurrentUsage (ops.foldl (fun acc pc => incrementUsage acc uid month pc) l)
        uid month).documentCount
      = (getCurrentUsage l uid month).documentCount + ops.length
    ∧ (getCurrentUsage (ops.foldl (fun acc pc => incrementUsage acc uid month pc) l)
        uid month).pageCount
      = (getCurrentUsage l uid month).pageCount + ops.sum := by
  induction ops generalizing l with
  | nil => simp
  | cons pc rest ih =>
    have step : getCurrentUsage (incrementUsage l uid month pc) uid month
        = { documentCount := (getCurrentUsage l uid month).documentCount + 1,
            pageCount := (getCurrentUsage l uid month).pageCount + pc } := by
      simp [incrementUsage, getCurrentUsage]
    obtain ⟨h1, h2⟩ := ih (incrementUsage l uid month pc)
    simp only [List.foldl_cons] at *
    rw [h1, h2, step]
    simp only [List.length_cons, List.sum_cons]
    omega

/-- Computation of the free-plan limit check in terms of the current usage. -/
theorem hasExceededLimit_free (l : Ledger) (uid month : String) :
    hasExceededLimit l uid month "free"
      = (if 5 ≤ (getCurrentUsage l uid month).documentCount then
           { exceeded := true, reason := some "document_limit",
             current := some (getCurrentUsage l uid month).documentCount,
             limit := some 5 }
         else if 100 ≤ (getCurrentUsage l uid month).pageCount then
           { exceeded := true, reason := some "page_limit",
             current := some (getCurrentUsage l uid month).pageCount,
             limit := some 100 }
         else { exceeded := false, reason := none, current := none, limit := none }) := by
  simp [hasExceededLimit, lookupLimits, jsGeLimit]

/-- C1: if the external summarizer call fails during an authenticated request,
the usage ledger is not mutated — the whole ledger, and in particular
`getCurrentUsage` for the requesting user, is unchanged by the failed call
(neither `documentCount` nor `pageCount` is incremented). -/
theorem upstream_failure_no_ledger_mutation (fileUploaded : Bool)
    (extract : Except String DocData) (e : String) (plan : String)
    (body : Option String) (l : Ledger) (uid month : String) :
    (processDocumentAuth fileUploaded extract (Except.error e) plan body l uid month).ledger = l
    ∧ getCurrentUsage
        (processDocumentAuth fileUploaded extract (Except.error e) plan body l uid month).ledger
        uid month
      = getCurrentUsage l uid month := by
  have h : (processDocumentAuth fileUploaded extract (Except.error e) plan body l uid month).ledger = l := by
    unfold processDocumentAuth
    cases fileUploaded
    · rfl
    · rcases extract with e' | d
      · rfl
      · simp only []
        split_ifs <;> rfl
  exact ⟨h, by rw [h]⟩

/-- C2: the claim that the temporary file is removed on *every* exit path
fails at the empty-text (`NoExtractableText`) path: both route handlers answer
400 there via an early `return` that never reaches an `fs.unlinkSync`, so the
uploaded file stays in the uploads directory. -/
theorem empty_text_path_keeps_temp_file :
    (processDocumentAuth true (Except.ok { text := " \n ", pageCount := 1 })
        (Except.ok "summary") "free" none emptyLedger "u1" "2024-05").response
      = AuthResponse.emptyText
    ∧ (processDocumentAuth true (Except.ok { text := " \n ", pageCount := 1 })
        (Except.ok "summary") "free" none emptyLedger "u1" "2024-05").fileStored = true
    ∧ (processDocumentGuest true (Except.ok { text := " \n ", pageCount := 1 })
        (Except.ok "summary") emptyLedger).response = GuestResponse.emptyText
    ∧ (processDocumentGuest true (Except.ok { text := " \n ", pageCount := 1 })
        (Except.ok "summary") emptyLedger).fileStored = true := by
  refine ⟨?_, ?_, ?_, ?_⟩ <;> decide

/-- C3: on the free plan, as long as the page counter is below its own cap,
`hasExceededLimit` reports exceeded exactly when `documentCount` has reached
the plan's document limit of 5 and then carries reason `document_limit` with
the current count and the limit; `canUploadDocument` admits the request
exactly when the count is still below 5 (so the first five requests of a
period are allowed and the sixth attempt is denied). -/
theorem free_plan_document_limit_boundary (l : Ledger) (uid month : String)
    (hPages : (getCurrentUsage l uid month).pageCount < 100) :
    ((hasExceededLimit l uid month "free").exceeded = true
        ↔ 5 ≤ (getCurrentUsage l uid month).documentCount)
    ∧ (5 ≤ (getCurrentUsage l uid month).documentCount →
        hasExceededLimit l uid month "free"
          = { exceeded := true, reason := some "document_limit",
              current := some (getCurrentUsage l uid month).documentCount,
              limit := some 5 })
    ∧ (canUploadDocument l uid month "free" = UploadGate.allowed
        ↔ (getCurrentUsage l uid month).documentCount < 5) := by
  have hfree := hasExceededLimit_free l uid month
  by_cases h5 : 5 ≤ (getCurrentUsage l uid month).documentCount
  · rw [if_pos h5] at hfree
    refine ⟨by rw [hfree]; simpa using h5, fun _ => hfree, ?_⟩
    rw [canUploadDocument, hfree]
    simp
    omega
  · rw [if_neg h5, if_neg (by omega)] at hfree
    refine ⟨by rw [hfree]; simpa using h5, fun h => absurd h h5, ?_⟩
    rw [canUploadDocument, hfree]
    simp
    omega

/-- C4: an authenticated free-plan user with remaining capacity requesting the
"long" tier passes the entitlement gate and is served with the tier silently
downgraded to "medium" (the free plan's maximum); no valid tier request is
ever rejected at the tier-validation step. -/
theorem free_long_request_downgraded (d : DocData) (s : String) (l : Ledger)
    (uid month : String) (hText : jsTrim d.text ≠ "")
    (hDocs : (getCurrentUsage l uid month).documentCount < 5)
    (hPages : (getCurrentUsage l uid month).pageCount < 100) :
    canUploadDocument l uid month "free" = UploadGate.allowed
    ∧ (processDocumentAuth true (Except.ok d) (Except.ok s) "free" (some "long")
        l uid month).response = AuthResponse.success s "medium" "free"
    ∧ ∀ tier, tier ∈ (["short", "medium", "long"] : List String) →
        (processDocumentAuth true (Except.ok d) (Except.ok s) "free" (some tier)
          l uid month).response ≠ AuthResponse.invalidSize := by
  refine ⟨?_, ?_, ?_⟩
  · have hfree := hasExceededLimit_free l uid month
    rw [if_neg (by omega), if_neg (by omega)] at hfree
    rw [canUploadDocument, hfree]
    simp
  · simp [processDocumentAuth, hText]
  · intro tier htier
    fin_cases htier <;> simp [processDocumentAuth, hText]

/-- C5: a guest request whose extracted page count exceeds the 2-page ceiling
is denied with the distinct too-large response carrying the actual page count
and the ceiling, the temporary file is unlinked, and the ledger is untouched
(the guest route never writes to it). -/
theorem guest_page_ceiling_denial (d : DocData) (summ : Except String String)
    (l : Ledger) (hText : jsTrim d.text ≠ "") (hPages : 2 < d.pageCount) :
    processDocumentGuest true (Except.ok d) summ l
      = { response := GuestResponse.tooLarge d.pageCount 2, ledger := l,
          fileStored := false } := by
  simp [processDocumentGuest, hText, hPages]

/-- C6: every word-count-based extractor (TXT, DOCX, RTF, ODT structured path)
reports `Math.max(1, Math.ceil(wordCount / 500))` pages — equal to the
natural-number ceiling division — so an input whose word count is below 500
yields exactly one page, and no input ever yields zero pages. -/
theorem extractor_page_estimate_floor (raw stripped : String)
    (sections : List (List (List String))) (root : XmlNode) :
    ((extractTextFromTXT raw).pageCount = max 1 ((wordCount raw + 499) / 500)
      ∧ (extractTextFromDOCX sections).pageCount
          = max 1 ((wordCount (docxText sections) + 499) / 500)
      ∧ (extractTextFromRTF stripped).pageCount
          = max 1 ((wordCount stripped + 499) / 500)
      ∧ (extractTextFromODT (OdtParse.ok root) raw).pageCount
          = max 1 ((wordCount (nodeText root) + 499) / 500))
    ∧ (wordCount raw < 500 → (extractTextFromTXT raw).pageCount = 1)
    ∧ (wordCount (docxText sections) < 500 →
        (extractTextFromDOCX sections).pageCount = 1)
    ∧ (wordCount stripped < 500 → (extractTextFromRTF stripped).pageCount = 1)
    ∧ (wordCount (nodeText root) < 500 →
        (extractTextFromODT (OdtParse.ok root) raw).pageCount = 1)
    ∧ 1 ≤ (extractTextFromTXT raw).pageCount
    ∧ 1 ≤ (extractTextFromDOCX sections).pageCount
    ∧ 1 ≤ (extractTextFromRTF stripped).pageCount
    ∧ 1 ≤ (extractTextFromODT (OdtParse.ok root) raw).pageCount := by
  have htxt : (extractTextFromTXT raw).pageCount = estimatedPages raw := rfl
  have hdocx : (extractTextFromDOCX sections).pageCount
      = estimatedPages (docxText sections) := rfl
  have hrtf : (extractTextFromRTF stripped).pageCount = estimatedPages stripped := rfl
  have hodt : (extractTextFromODT (OdtParse.ok root) raw).pageCount
      = estimatedPages (nodeText root) := rfl
  rw [htxt, hdocx, hrtf, hodt, estimatedPages_eq, estimatedPages_eq,
    estimatedPages_eq, estimatedPages_eq]
  refine ⟨⟨rfl, rfl, rfl, rfl⟩, ?_, ?_, ?_, ?_, ?_, ?_, ?_, ?_⟩ <;> omega

/-- C7: `incrementUsage` is one atomic upsert-and-increment, so a concurrent
batch of K calls for the same fresh user and period — which, by atomicity of
each call, executes as the K operations in some serial order — always ends
with `documentCount = K` (and `pageCount` the sum of the page counts), with
no lost updates, whatever the order. -/
theorem increment_usage_no_lost_updates (ops : List Nat) (uid month : String) :
    (getCurrentUsage
        (ops.foldl (fun acc pc => incrementUsage acc uid month pc) emptyLedger)
        uid month).documentCount = ops.length
    ∧ (getCurrentUsage
        (ops.foldl (fun acc pc => incrementUsage acc uid month pc) emptyLedger)
        uid month).pageCount = ops.sum := by
  obtain ⟨h1, h2⟩ := foldl_incrementUsage uid month ops emptyLedger
  refine ⟨?_, ?_⟩
  · rw [h1]; simp [getCurrentUsage, emptyLedger]
  · rw [h2]; simp [getCurrentUsage, emptyLedger]

/-- C8: the claim that an over-limit denial carries a machine-readable
`reason` (document_limit vs page_limit) and a message citing which limit was
hit fails: `canUploadDocument` destructures these fields out of the *string*
`req.usage.limitReason`, so the response's `reason` is `undefined`, its
`message` is empty, and its `error` is the generic fallback — even though
`hasExceededLimit` did report `document_limit` with `current: 5, limit: 5`. -/
theorem limit_denial_response_drops_reason :
    hasExceededLimit (singletonLedger "u1" "2024-05" { documentCount := 5, pageCount := 0 })
        "u1" "2024-05" "free"
      = { exceeded := true, reason := some "document_limit",
          current := some 5, limit := some 5 }
    ∧ canUploadDocument (singletonLedger "u1" "2024-05" { documentCount := 5, pageCount := 0 })
        "u1" "2024-05" "free"
      = UploadGate.denied
          { error := "You have reached your monthly limit. Please upgrade your plan to continue.",
            message := "",
            currentUsage := { documentCount := 5, pageCount := 0 },
            limits := LimitsVal.obj { documents := some 5, pages := some 100 },
            plan := "free", reason := none } := by
  refine ⟨?_, ?_⟩ <;> decide

/-- C9: when the structured ODT parse fails — the archive cannot be opened,
`content.xml` is missing, or the XML does not parse — the extractor returns
the plain-text extraction of the raw bytes (the degraded result) instead of
failing the request. -/
theorem odt_parse_failure_falls_back_to_txt (raw : String) :
    extractTextFromODT OdtParse.zipOpenError raw = extractTextFromTXT raw
    ∧ extractTextFromODT OdtParse.missingContentXml raw = extractTextFromTXT raw
    ∧ extractTextFromODT OdtParse.xmlParseError raw = extractTextFromTXT raw
    ∧ (extractTextFromODT OdtParse.zipOpenError raw).text = raw :=
  ⟨rfl, rfl, rfl, rfl⟩

/-- C10 (amended): any plan name other than "free", "premium" and "pro"
(including an absent one) that is also not a property name inherited from
`Object.prototype` misses the `limits` lookup entirely, so `getLimits` and
`hasExceededLimit` fall back to the free plan's limits (5 documents,
100 pages) instead of failing or granting unlimited usage.  (For the
inherited names the claim fails, see the counterexample.) -/
theorem unknown_plan_uses_free_limits (plan : String) (l : Ledger)
    (uid month : String) (h1 : plan ≠ "free") (h2 : plan ≠ "premium")
    (h3 : plan ≠ "pro") (h4 : plan ∉ objectPrototypeNames) :
    getLimits plan = LimitsVal.obj { documents := some 5, pages := some 100 }
    ∧ hasExceededLimit l uid month plan = hasExceededLimit l uid month "free" := by
  have hlook : lookupLimits plan = LimitsVal.obj { documents := some 5, pages := some 100 } := by
    rw [lookupLimits, if_neg h1, if_neg h2, if_neg h3, if_neg h4]
  constructor
  · rw [getLimits, hlook]
  · rw [hasExceededLimit, hasExceededLimit, hlook]
    simp [lookupLimits]

/-- C10 counterexample: the plan name "toString" is outside
free/premium/pro, yet `limits["toString"]` finds the inherited
`Object.prototype.toString` (truthy), so `getLimits` does not return the
free limits and `hasExceededLimit` reports not-exceeded — unlimited usage —
even for a user far beyond the free caps. -/
theorem object_prototype_plan_counterexample :
    ("toString" : String) ≠ "free"
    ∧ ("toString" : String) ≠ "premium"
    ∧ ("toString" : String) ≠ "pro"
    ∧ getLimits "toString" ≠ LimitsVal.obj { documents := some 5, pages := some 100 }
    ∧ hasExceededLimit
        (singletonLedger "u1" "2024-05" { documentCount := 1000000, pageCount := 1000000 })
        "u1" "2024-05" "toString"
      = { exceeded := false, reason := none, current := none, limit := none } := by
  refine ⟨?_, ?_, ?_, ?_, ?_⟩ <;> decide

/-- Witness for C3: a free user at 5 documents and 10 pages is reported over
the document limit with `current: 5, limit: 5`, while at 4 documents the
upload is still allowed. -/
theorem free_plan_document_limit_boundary_witness :
    (getCurrentUsage (singletonLedger "u1" "2024-05" { documentCount := 5, pageCount := 10 })
        "u1" "2024-05").pageCount < 100
    ∧ hasExceededLimit (singletonLedger "u1" "2024-05" { documentCount := 5, pageCount := 10 })
        "u1" "2024-05" "free"
      = { exceeded := true, reason := some "document_limit",
          current := some 5, limit := some 5 }
    ∧ canUploadDocument (singletonLedger "u1" "2024-05" { documentCount := 4, pageCount := 10 })
        "u1" "2024-05" "free" = UploadGate.allowed := by
  refine ⟨by decide, ?_, ?_⟩
  · have h := (free_plan_document_limit_boundary
      (singletonLedger "u1" "2024-05" { documentCount := 5, pageCount := 10 })
      "u1" "2024-05" (by decide)).2.1 (by decide)
    rw [h]
    decide
  · exact ((free_plan_document_limit_boundary
      (singletonLedger "u1" "2024-05" { documentCount := 4, pageCount := 10 })
      "u1" "2024-05" (by decide)).2.2).mpr (by decide)

/-- Witness for C4: a fresh free user uploading a non-empty document and
requesting the "long" tier gets a successful "medium" summary. -/
theorem free_long_request_downgraded_witness :
    jsTrim "hello world" ≠ ""
    ∧ (processDocumentAuth true (Except.ok { text := "hello world", pageCount := 1 })
        (Except.ok "a summary") "free" (some "long") emptyLedger "u1" "2024-05").response
      = AuthResponse.success "a summary" "medium" "free" := by
  refine ⟨by decide, ?_⟩
  exact (free_long_request_downgraded { text := "hello world", pageCount := 1 }
    "a summary" emptyLedger "u1" "2024-05" (by decide) (by decide) (by decide)).2.1

/-- Witness for C5: a guest with a 3-page extraction is denied with
`pageCount: 3, maxPages: 2`. -/
theorem guest_page_ceiling_denial_witness :
    (2 : Nat) < 3
    ∧ (processDocumentGuest true (Except.ok { text := "three pages", pageCount := 3 })
        (Except.ok "s") emptyLedger).response = GuestResponse.tooLarge 3 2 := by
  refine ⟨by decide, ?_⟩
  rw [guest_page_ceiling_denial { text := "three pages", pageCount := 3 }
    (Except.ok "s") emptyLedger (by decide) (by decide)]

/-- Witness for C6: an 11-character two-word TXT input has word count below
500 and is estimated at exactly one page. -/
theorem extractor_page_estimate_floor_witness :
    wordCount "hello world" < 500
    ∧ (extractTextFromTXT "hello world").pageCount = 1
    ∧ 1 ≤ (extractTextFromTXT "hello world").pageCount := by
  refine ⟨by decide, ?_, ?_⟩
  · exact (extractor_page_estimate_floor "hello world" "" []
      (XmlNode.str "x")).2.1 (by decide)
  · exact (extractor_page_estimate_floor "hello world" "" []
      (XmlNode.str "x")).2.2.2.2.2.1

/-- Witness for C10: the unknown plan name "enterprise" — not an inherited
property name either — is evaluated against the free plan's limits. -/
theorem unknown_plan_uses_free_limits_witness :
    ("enterprise" : String) ≠ "free"
    ∧ ("enterprise" : String) ∉ objectPrototypeNames
    ∧ getLimits "enterprise" = LimitsVal.obj { documents := some 5, pages := some 100 }
    ∧ hasExceededLimit emptyLedger "u1" "2024-05" "enterprise"
        = hasExceededLimit emptyLedger "u1" "2024-05" "free" := by
  refine ⟨by decide, by decide, ?_, ?_⟩
  · exact (unknown_plan_uses_free_limits "enterprise" emptyLedger "u1" "2024-05"
      (by decide) (by decide) (by decide) (by decide)).1
  · exact (unknown_plan_uses_free_limits "enterprise" emptyLedger "u1" "2024-05"
      (by decide) (by decide) (by decide) (by decide)).2
